import Mathlib

/-!
Shallow embedding of the simulation core of `src/src/SnakeGame.js`.

JavaScript numbers are modelled as exact rationals in the collision, food
and projectile layer: there every use of `Math.sqrt` is of the form
`Math.sqrt d < r` with a nonnegative constant radius `r`, which is
equivalent to `d < r ^ 2`, so the embedding compares squared distances.
The movement and steering layer (which genuinely needs `cos`, `sin`,
`sqrt` and `Math.PI`) is modelled over the real numbers further below.
-/

/-- A 2D point, `{x, y}` in the source. -/
structure Vec (α : Type) where
  x : α
  y : α
  deriving DecidableEq

/-- Game mode: `'single'` or `'multiplayer'`. -/
inductive Mode where
  | single
  | multiplayer
  deriving DecidableEq

/-- Difficulty: `'easy'` or `'hard'`. -/
inductive Difficulty where
  | easy
  | hard
  deriving DecidableEq

/-- One snake, mirroring the fields of `snakeRef.current` / `snake2Ref.current`.
The presentational `canShoot` flag is omitted (it is never read by the core). -/
structure Snake (α : Type) where
  head : Vec α
  angle : α
  targetAngle : α
  body : List (Vec α)
  length : ℕ
  alive : Bool
  slowedUntil : α
  shootCooldown : α
  deriving DecidableEq

/-- A projectile, mirroring the object built in `shoot` (the presentational
`color` field is omitted; it is a pure function of `owner`). -/
structure Projectile (α : Type) where
  x : α
  y : α
  vx : α
  vy : α
  owner : ℕ
  createdAt : α
  deriving DecidableEq

/-- The game state read and written by `checkCollisions`: the two snake refs,
the food ref, the score/speed refs, and the match-outcome fields. -/
structure GameState where
  snake1 : Snake ℚ
  snake2 : Snake ℚ
  food : Vec ℚ
  score1 : ℕ
  score2 : ℕ
  speed : ℚ
  mode : Mode
  difficulty : Difficulty
  gameOver : Bool
  winner : String
  reason : String
  deriving DecidableEq

/-- Squared Euclidean distance.  The source computes
`Math.sqrt(Math.pow(ax-bx,2) + Math.pow(ay-by,2))` and compares it with a
constant radius `r ≥ 0`; `sqrt d < r ↔ d < r^2`, so all comparisons below
use the squared form. -/
def distSq (a b : Vec ℚ) : ℚ := (a.x - b.x) ^ 2 + (a.y - b.y) ^ 2

/-- Constant `SLOW_DURATION = 1000` (milliseconds of slow effect). -/
def SLOW_DURATION : ℚ := 1000

/-- The speed update applied on a food pickup (lines 423-429 and 504-510):
only in hard difficulty, `speed := min(speed + speedIncrementPerFood, maxSpeed)`
with `speedIncrementPerFood = 0.15` and `maxSpeed = 12.0`. -/
def speedOnPickup (d : Difficulty) (s : ℚ) : ℚ :=
  match d with
  | .hard => min (s + 15 / 100) 12
  | .easy => s

/-- Base speed `DIFFICULTY_SETTINGS[d].speed`: 2.5 for easy, 5.0 for hard. -/
def baseSpeed : Difficulty → ℚ
  | .easy => 5 / 2
  | .hard => 5

/-- The snake list `generateFood` checks against:
`gameMode === 'multiplayer' ? [snake1, snake2] : [snake1]`. -/
def snakesForMode (mode : Mode) (s1 s2 : Snake ℚ) : List (Snake ℚ) :=
  match mode with
  | .multiplayer => [s1, s2]
  | .single => [s1]

/-- The acceptance test of `generateFood`'s rejection loop: the candidate is
rejected when its distance to some head is below 50 or to some body segment
is below 30. -/
def foodValid (f : Vec ℚ) (snakes : List (Snake ℚ)) : Bool :=
  snakes.all fun s =>
    !(decide (distSq f s.head < 50 ^ 2)) &&
      s.body.all fun seg => !(decide (distSq f seg < 30 ^ 2))

/-- The candidate built from one pair of `Math.random()` draws:
`{x: r1 * (w - 40) + 20, y: r2 * (h - 40) + 20}`. -/
def candToPoint (w h : ℚ) (c : ℚ × ℚ) : Vec ℚ :=
  ⟨c.1 * (w - 40) + 20, c.2 * (h - 40) + 20⟩

/-- The source's `generateFood`, with the stream of random draws made explicit as a list of
candidates: the loop keeps drawing until a candidate passes `foodValid`.
`none` models the case in which the supplied draws are exhausted without a
valid candidate (in the source the loop would simply keep running). -/
def generateFood (w h : ℚ) (mode : Mode) (s1 s2 : Snake ℚ) :
    List (ℚ × ℚ) → Option (Vec ℚ × List (ℚ × ℚ))
  | [] => none
  | c :: rest =>
    let f := candToPoint w h c
    if foodValid f (snakesForMode mode s1 s2) then some (f, rest)
    else generateFood w h mode s1 s2 rest

/-- Self-collision test (lines 435-442 / 516-523): segments `i = 5, ...` of the
snake's own body, first hit kills.  `List.drop 5` mirrors the loop start. -/
def selfHit (s : Snake ℚ) : Bool :=
  (s.body.drop 5).any fun seg => decide (distSq s.head seg < 6 ^ 2)

/-- Head-against-body test (lines 473-480 / 534-541): every segment of the
other snake's body, radius 6. -/
def bodyHit (head : Vec ℚ) (body : List (Vec ℚ)) : Bool :=
  body.any fun seg => decide (distSq head seg < 6 ^ 2)

/-- Player 1 food pickup (lines 412-432): reward, growth, hard-mode speed
bump, then respawn of the food.  `food0` is the food position captured once
by `const food = foodRef.current` at the start of `checkCollisions`
(line 409); for Player 1 it still coincides with the current food. -/
def p1FoodCheck (w h : ℚ) (food0 : Vec ℚ) (cands : List (ℚ × ℚ))
    (st : GameState) : Option (GameState × List (ℚ × ℚ)) :=
  if distSq st.snake1.head food0 < 15 ^ 2 then
    let s1 := { st.snake1 with length := st.snake1.length + 5 }
    match generateFood w h st.mode s1 st.snake2 cands with
    | none => none
    | some (f, rest) =>
        some ({ st with snake1 := s1, score1 := st.score1 + 10,
                        speed := speedOnPickup st.difficulty st.speed,
                        food := f }, rest)
  else some (st, cands)

/-- Player 1 self-collision (lines 434-454). -/
def p1SelfCheck (st : GameState) : GameState :=
  if selfHit st.snake1 then
    match st.mode with
    | .single =>
        { st with snake1 := { st.snake1 with alive := false },
                  gameOver := true, reason := "You hit yourself!" }
    | .multiplayer =>
        { st with snake1 := { st.snake1 with alive := false },
                  winner := "Player 2 (Blue)", gameOver := true,
                  reason := "Player 1 (Green) hit themselves!" }
  else st

/-- Player 1 against Player 2 (lines 456-489): head-on first (radius 10,
both die, tie), otherwise head against Player 2's body (radius 6). -/
def p1VsP2Check (st : GameState) : GameState :=
  if st.mode = Mode.multiplayer ∧ st.snake2.alive = true then
    if distSq st.snake1.head st.snake2.head < 10 ^ 2 then
      { st with snake1 := { st.snake1 with alive := false },
                snake2 := { st.snake2 with alive := false },
                gameOver := true, winner := "Tie",
                reason := "Head-on collision!" }
    else if bodyHit st.snake1.head st.snake2.body then
      { st with snake1 := { st.snake1 with alive := false },
                winner := "Player 2 (Blue)", gameOver := true,
                reason := "Player 1 (Green) hit Player 2!" }
    else st
  else st

/-- The whole `if (snake1.alive) { ... }` block of `checkCollisions`. -/
def p1Block (w h : ℚ) (food0 : Vec ℚ) (cands : List (ℚ × ℚ)) (st : GameState) :
    Option (GameState × List (ℚ × ℚ)) :=
  if st.snake1.alive then
    (p1FoodCheck w h food0 cands st).map fun p =>
      (p1VsP2Check (p1SelfCheck p.1), p.2)
  else some (st, cands)

/-- Player 2 food pickup (lines 493-513).  The distance test reads `food0`,
the stale local captured by `const food = foodRef.current` at line 409:
`generateFood` rebinds `foodRef.current` to a fresh object and never
mutates the old one, so even if Player 1 already picked up this tick,
Player 2 is tested against the pre-tick food position. -/
def p2FoodCheck (w h : ℚ) (food0 : Vec ℚ) (cands : List (ℚ × ℚ))
    (st : GameState) : Option (GameState × List (ℚ × ℚ)) :=
  if distSq st.snake2.head food0 < 15 ^ 2 then
    let s2 := { st.snake2 with length := st.snake2.length + 5 }
    match generateFood w h st.mode st.snake1 s2 cands with
    | none => none
    | some (f, rest) =>
        some ({ st with snake2 := s2, score2 := st.score2 + 10,
                        speed := speedOnPickup st.difficulty st.speed,
                        food := f }, rest)
  else some (st, cands)

/-- Player 2 self-collision (lines 515-530). -/
def p2SelfCheck (st : GameState) : GameState :=
  if selfHit st.snake2 then
    { st with snake2 := { st.snake2 with alive := false },
              winner := "Player 1 (Green)", gameOver := true,
              reason := "Player 2 (Blue) hit themselves!" }
  else st

/-- Player 2's head against Player 1's body (lines 532-549), guarded by
`snake1.alive` as currently recorded. -/
def p2VsP1Check (st : GameState) : GameState :=
  if st.snake1.alive then
    if bodyHit st.snake2.head st.snake1.body then
      { st with snake2 := { st.snake2 with alive := false },
                winner := "Player 1 (Green)", gameOver := true,
                reason := "Player 2 (Blue) hit Player 1!" }
    else st
  else st

/-- The whole `if (gameMode === 'multiplayer' && snake2.alive) { ... }` block. -/
def p2Block (w h : ℚ) (food0 : Vec ℚ) (cands : List (ℚ × ℚ)) (st : GameState) :
    Option (GameState × List (ℚ × ℚ)) :=
  if st.mode = Mode.multiplayer ∧ st.snake2.alive = true then
    (p2FoodCheck w h food0 cands st).map fun p =>
      (p2VsP1Check (p2SelfCheck p.1), p.2)
  else some (st, cands)

/-- The source's `checkCollisions` (lines 406-551): the food position is
captured once at entry (`const food = foodRef.current`, line 409) and both
food tests read that stale value; the Player 1 block is followed by the
Player 2 block, threading the stream of food-respawn candidates. -/
def checkCollisions (w h : ℚ) (cands : List (ℚ × ℚ)) (st : GameState) :
    Option GameState :=
  (p1Block w h st.food cands st).bind fun p =>
    (p2Block w h st.food p.2 p.1).map Prod.fst

/-- One iteration of the filter in `checkProjectileCollisions` (lines 145-179):
result is (keep this projectile?, snake1 after, snake2 after).  A projectile
owned by player 2 is tested against Player 1's head only, and vice versa;
a hit (radius 10) consumes the projectile and stamps `slowedUntil`. -/
def processProj (mode : Mode) (now : ℚ) (s1 s2 : Snake ℚ) (p : Projectile ℚ) :
    Bool × Snake ℚ × Snake ℚ :=
  if p.owner = 2 ∧ s1.alive = true ∧ distSq ⟨p.x, p.y⟩ s1.head < 10 ^ 2 then
    (false, { s1 with slowedUntil := now + SLOW_DURATION }, s2)
  else if p.owner = 1 ∧ s2.alive = true ∧ mode = Mode.multiplayer ∧
      distSq ⟨p.x, p.y⟩ s2.head < 10 ^ 2 then
    (false, s1, { s2 with slowedUntil := now + SLOW_DURATION })
  else (true, s1, s2)

/-- The source's `checkProjectileCollisions`: the filter over the projectile array, with
the snake mutations threaded through. -/
def checkProjectileCollisions (mode : Mode) (now : ℚ) :
    List (Projectile ℚ) → Snake ℚ → Snake ℚ →
      List (Projectile ℚ) × Snake ℚ × Snake ℚ
  | [], s1, s2 => ([], s1, s2)
  | p :: rest, s1, s2 =>
    let r := processProj mode now s1 s2 p
    let k := checkProjectileCollisions mode now rest r.2.1 r.2.2
    (if r.1 then p :: k.1 else k.1, k.2)

/-!
The movement and steering layer, over the real numbers.
-/

/-- Constant `SLOW_FACTOR = 0`, the speed multiplier while slowed (line 13). -/
def SLOW_FACTOR : ℝ := 0

/-- Constant `SEGMENT_SPACING = 8`, the distance between body segments (line 5). -/
def SEGMENT_SPACING : ℝ := 8

/-- Constant `PROJECTILE_SPEED = 8` (line 9). -/
def PROJECTILE_SPEED : ℝ := 8

/-- Constant `SHOOT_COOLDOWN = 1000` milliseconds (line 11). -/
def SHOOT_COOLDOWN : ℝ := 1000

/-- The head wrap (lines 355-358): two sequential conditional assignments,
`if (v < 0) v = dim; if (v > dim) v = 0;`. -/
noncomputable def wrapCoord (v dim : ℝ) : ℝ :=
  let v1 := if v < 0 then dim else v
  if v1 > dim then 0 else v1

/-- The wrap-aware per-axis delta correction of the body update
(lines 377-382). -/
noncomputable def wrapDelta (d dim : ℝ) : ℝ :=
  if |d| > dim / 2 then (if d > 0 then d - dim else d + dim) else d

/-- The body-segment wrap (lines 391-394): two sequential conditional
updates, `if (v < 0) v += dim; if (v > dim) v -= dim;`. -/
noncomputable def wrapPos (v dim : ℝ) : ℝ :=
  let v1 := if v < 0 then v + dim else v
  if v1 > dim then v1 - dim else v1

/-- The wrap-corrected delta `(dx, dy)` of one body-update step
(lines 373-382). -/
noncomputable def segDelta (w h : ℝ) (target current : Vec ℝ) : Vec ℝ :=
  ⟨wrapDelta (target.x - current.x) w, wrapDelta (target.y - current.y) h⟩

/-- The length `distance = Math.sqrt(dx*dx + dy*dy)` of one body-update step
(line 384). -/
noncomputable def segDist (w h : ℝ) (target current : Vec ℝ) : ℝ :=
  Real.sqrt ((segDelta w h target current).x * (segDelta w h target current).x +
    (segDelta w h target current).y * (segDelta w h target current).y)

/-- One segment of the body update (lines 373-399): if the wrap-corrected
distance exceeds `SEGMENT_SPACING` the segment moves to
`target - delta * (SEGMENT_SPACING / distance)` and wraps, otherwise it
stays put. -/
noncomputable def segStep (w h : ℝ) (target current : Vec ℝ) : Vec ℝ :=
  if segDist w h target current > SEGMENT_SPACING then
    ⟨wrapPos (target.x - (segDelta w h target current).x *
        (SEGMENT_SPACING / segDist w h target current)) w,
     wrapPos (target.y - (segDelta w h target current).y *
        (SEGMENT_SPACING / segDist w h target current)) h⟩
  else current

/-- The `current` selection of the body loop (lines 365-371): the stored
segment `i` if it exists, else the last stored segment, else the head. -/
def currentSeg (head : Vec ℝ) (oldBody : List (Vec ℝ)) (i : ℕ) : Vec ℝ :=
  match oldBody.get? i with
  | some c => c
  | none => oldBody.getLast?.getD head

/-- The body loop of `moveSnake` (lines 360-402), iterating `i` from 0 with
`n` segments left to produce; `target` is the head for `i = 0` and the
previously computed segment afterwards. -/
noncomputable def moveBodyGo (w h : ℝ) (head : Vec ℝ) (oldBody : List (Vec ℝ)) :
    ℕ → ℕ → Vec ℝ → List (Vec ℝ)
  | _, 0, _ => []
  | i, n + 1, target =>
    let c := currentSeg head oldBody i
    let s := segStep w h target c
    s :: moveBodyGo w h head oldBody (i + 1) n s

/-- The new body: `snake.length` segments computed head-to-tail. -/
noncomputable def moveBody (w h : ℝ) (head : Vec ℝ) (oldBody : List (Vec ℝ))
    (len : ℕ) : List (Vec ℝ) :=
  moveBodyGo w h head oldBody 0 len head

/-- The source's `moveSnake` (lines 337-403): early return when dead; otherwise the
effective speed (zeroed by an active slow effect via `SLOW_FACTOR`), the
head advance along `angle` with head wrap, and the body update. -/
noncomputable def moveSnake (w h speed0 now : ℝ) (s : Snake ℝ) : Snake ℝ :=
  if s.alive then
    let speed := if now < s.slowedUntil then speed0 * SLOW_FACTOR else speed0
    let newHead : Vec ℝ := ⟨wrapCoord (s.head.x + Real.cos s.angle * speed) w,
                            wrapCoord (s.head.y + Real.sin s.angle * speed) h⟩
    { s with head := newHead, body := moveBody w h newHead s.body s.length }
  else s

/-- The source's `shoot` (lines 91-115): ignored during cooldown; otherwise push one
projectile at the shooter's head with velocity `PROJECTILE_SPEED` along
`angle`, tagged with the shooter's number and `now`, and set the cooldown. -/
noncomputable def shoot (s : Snake ℝ) (playerNumber : ℕ) (now : ℝ)
    (projectiles : List (Projectile ℝ)) : List (Projectile ℝ) × Snake ℝ :=
  if now < s.shootCooldown then (projectiles, s)
  else
    (projectiles ++ [⟨s.head.x, s.head.y, Real.cos s.angle * PROJECTILE_SPEED,
        Real.sin s.angle * PROJECTILE_SPEED, playerNumber, now⟩],
     { s with shootCooldown := now + SHOOT_COOLDOWN })

/-- The first normalization loop of `updateSnake` (lines 326-328):
`while (t > Math.PI) t -= 2 * Math.PI`. -/
noncomputable def normDown (t : ℝ) : ℝ :=
  if t > Real.pi then normDown (t - 2 * Real.pi) else t
termination_by (⌈(t - Real.pi) / (2 * Real.pi)⌉).toNat
decreasing_by
  have hpi := Real.pi_pos
  have hx : 0 < (t - Real.pi) / (2 * Real.pi) := by
    apply div_pos (by linarith) (by linarith)
  have hceil : 0 < ⌈(t - Real.pi) / (2 * Real.pi)⌉ := Int.ceil_pos.mpr hx
  have heq : (t - 2 * Real.pi - Real.pi) / (2 * Real.pi) =
      (t - Real.pi) / (2 * Real.pi) - 1 := by
    field_simp
    ring
  rw [heq, Int.ceil_sub_one]
  omega

/-- The second normalization loop of `updateSnake` (lines 329-331):
`while (t < -Math.PI) t += 2 * Math.PI`. -/
noncomputable def normUp (t : ℝ) : ℝ :=
  if t < -Real.pi then normUp (t + 2 * Real.pi) else t
termination_by (⌈(-Real.pi - t) / (2 * Real.pi)⌉).toNat
decreasing_by
  have hpi := Real.pi_pos
  have hx : 0 < (-Real.pi - t) / (2 * Real.pi) := by
    apply div_pos (by linarith) (by linarith)
  have hceil : 0 < ⌈(-Real.pi - t) / (2 * Real.pi)⌉ := Int.ceil_pos.mpr hx
  have heq : (-Real.pi - (t + 2 * Real.pi)) / (2 * Real.pi) =
      (-Real.pi - t) / (2 * Real.pi) - 1 := by
    field_simp
    ring
  rw [heq, Int.ceil_sub_one]
  omega

/-- The full angle normalization of `updateSnake`. -/
noncomputable def normalizeAngle (t : ℝ) : ℝ := normUp (normDown t)

/-- The source's `updateSnake` (lines 303-334), restricted to its effect on the angles:
apply the held turn keys to `targetAngle` at `rotationSpeed` per tick,
normalize, and copy the result into `angle`. -/
noncomputable def updateSnake (left right : Bool) (rotationSpeed : ℝ)
    (s : Snake ℝ) : Snake ℝ :=
  let t1 := if left then s.targetAngle - rotationSpeed else s.targetAngle
  let t2 := if right then t1 + rotationSpeed else t1
  let t3 := normalizeAngle t2
  { s with targetAngle := t3, angle := t3 }

/-!
Concrete states used to evaluate the definitions on specific inputs.
-/

/-- A live real-valued snake at the centre, facing right, slowed until
time 10, with no cooldown pending. -/
noncomputable def sA : Snake ℝ :=
  { head := ⟨300, 300⟩, angle := 0, targetAngle := 0, body := [], length := 0,
    alive := true, slowedUntil := 10, shootCooldown := 0 }

/-- A live real-valued snake just right of the left edge, facing left. -/
noncomputable def snakeC3 : Snake ℝ :=
  { head := ⟨1 / 2, 300⟩, angle := Real.pi, targetAngle := Real.pi, body := [],
    length := 0, alive := true, slowedUntil := 0, shootCooldown := 0 }

/-- A live real-valued snake whose target angle sits `rotationSpeed` above
the lower normalization boundary. -/
noncomputable def snakeC5 : Snake ℝ :=
  { head := ⟨0, 0⟩, angle := 7 / 100 - Real.pi, targetAngle := 7 / 100 - Real.pi,
    body := [], length := 0, alive := true, slowedUntil := 0, shootCooldown := 0 }

/-- A live rational-valued snake far from the food margin corner. -/
def snakeB : Snake ℚ :=
  { head := ⟨500, 500⟩, angle := 0, targetAngle := 0, body := [], length := 0,
    alive := true, slowedUntil := 0, shootCooldown := 0 }

/-- A live rational-valued snake with its head on the food margin corner. -/
def snakeC : Snake ℚ :=
  { head := ⟨20, 20⟩, angle := 0, targetAngle := 0, body := [], length := 0,
    alive := true, slowedUntil := 0, shootCooldown := 0 }

/-- A live rational-valued snake close to the origin. -/
def s1C8 : Snake ℚ :=
  { head := ⟨5, 0⟩, angle := 0, targetAngle := 0, body := [], length := 0,
    alive := true, slowedUntil := 0, shootCooldown := 0 }

/-- A projectile owned by player 2 sitting at the origin. -/
def p0 : Projectile ℚ := ⟨0, 0, 8, 0, 2, 0⟩

/-- A duo state in which Player 1 self-collides this tick (segment 5 of its
own body is 3 away from its head) and Player 2 is far away and safe. -/
def stW : GameState :=
  { snake1 := { head := ⟨100, 100⟩, angle := 0, targetAngle := 0,
                body := [⟨300, 250⟩, ⟨300, 250⟩, ⟨300, 250⟩, ⟨300, 250⟩,
                         ⟨300, 250⟩, ⟨103, 100⟩],
                length := 6, alive := true, slowedUntil := 0, shootCooldown := 0 },
    snake2 := { head := ⟨500, 500⟩, angle := 0, targetAngle := 0, body := [],
                length := 0, alive := true, slowedUntil := 0, shootCooldown := 0 },
    food := ⟨300, 300⟩, score1 := 0, score2 := 0, speed := 5 / 2,
    mode := Mode.multiplayer, difficulty := Difficulty.easy,
    gameOver := false, winner := "", reason := "" }

/-- The state `checkCollisions` produces from `stW`. -/
def stW' : GameState :=
  { stW with snake1 := { stW.snake1 with alive := false },
             winner := "Player 2 (Blue)", gameOver := true,
             reason := "Player 1 (Green) hit themselves!" }

/-- A duo state in which both snakes self-collide in the same tick while
far apart from each other (no head-on contact). -/
def stX : GameState :=
  { stW with
    snake2 := { head := ⟨500, 500⟩, angle := 0, targetAngle := 0,
                body := [⟨300, 350⟩, ⟨300, 350⟩, ⟨300, 350⟩, ⟨300, 350⟩,
                         ⟨300, 350⟩, ⟨503, 500⟩],
                length := 6, alive := true, slowedUntil := 0, shootCooldown := 0 } }

/-- A duo state in which both heads are within the pickup radius of the food
at the start of collision resolution. -/
def stY : GameState :=
  { snake1 := { head := ⟨310, 300⟩, angle := 0, targetAngle := 0, body := [],
                length := 0, alive := true, slowedUntil := 0, shootCooldown := 0 },
    snake2 := { head := ⟨290, 300⟩, angle := 0, targetAngle := 0, body := [],
                length := 0, alive := true, slowedUntil := 0, shootCooldown := 0 },
    food := ⟨300, 300⟩, score1 := 0, score2 := 0, speed := 5 / 2,
    mode := Mode.multiplayer, difficulty := Difficulty.easy,
    gameOver := false, winner := "", reason := "" }

/-- The state `checkCollisions` produces from `stY` with the candidate
stream `[(1/7, 1/7), (1/4, 1/4)]`: both snakes are rewarded, both pickups
fire a respawn, and the food that survives the tick comes from the second
candidate. -/
def stY2 : GameState :=
  { stY with snake1 := { stY.snake1 with length := 5 },
             snake2 := { stY.snake2 with length := 5 },
             score1 := 10, score2 := 10, food := ⟨160, 160⟩ }

/-!
Theorems.
-/

lemma wrapCoord_mem (v : ℝ) {dim : ℝ} (hdim : 0 ≤ dim) :
    0 ≤ wrapCoord v dim ∧ wrapCoord v dim ≤ dim := by
  simp only [wrapCoord]
  constructor <;> split_ifs <;> linarith

lemma wrapCoord_eq_self {v dim : ℝ} (h0 : 0 ≤ v) (h1 : v ≤ dim) :
    wrapCoord v dim = v := by
  simp only [wrapCoord]
  rw [if_neg (not_lt.mpr h0), if_neg (not_lt.mpr h1)]

/-- Claim C3 (amended): a live snake's head, after the per-tick advance and
wrap, lands in the closed box `[0, w] × [0, h]` (the closed interval: the
source wrap maps a negative coordinate to exactly `w`, and leaves exactly
`w` unchanged, so `[0, w)` does not hold). -/
theorem moveSnake_head_in_bounds (w h speed0 now : ℝ) (s : Snake ℝ)
    (halive : s.alive = true) (hw : 0 ≤ w) (hh : 0 ≤ h) :
    0 ≤ (moveSnake w h speed0 now s).head.x ∧
    (moveSnake w h speed0 now s).head.x ≤ w ∧
    0 ≤ (moveSnake w h speed0 now s).head.y ∧
    (moveSnake w h speed0 now s).head.y ≤ h := by
  unfold moveSnake
  rw [if_pos halive]
  dsimp only
  exact ⟨(wrapCoord_mem _ hw).1, (wrapCoord_mem _ hw).2,
    (wrapCoord_mem _ hh).1, (wrapCoord_mem _ hh).2⟩

/-- Witness for the amended C3 theorem at a concrete snake. -/
theorem moveSnake_head_in_bounds_witness :
    sA.alive = true ∧
    (0 ≤ (moveSnake 600 600 1 5 sA).head.x ∧
     (moveSnake 600 600 1 5 sA).head.x ≤ 600 ∧
     0 ≤ (moveSnake 600 600 1 5 sA).head.y ∧
     (moveSnake 600 600 1 5 sA).head.y ≤ 600) :=
  ⟨rfl, moveSnake_head_in_bounds 600 600 1 5 sA rfl (by norm_num) (by norm_num)⟩

/-- Claim C3 counterexample: a head driven to a negative x-coordinate ends
the tick at exactly `width`, which is not in `[0, width)`. -/
theorem head_wrap_counterexample :
    (moveSnake 600 600 (5 / 2) 0 snakeC3).head.x = 600 ∧
    ¬ (moveSnake 600 600 (5 / 2) 0 snakeC3).head.x < 600 := by
  have hx : (moveSnake 600 600 (5 / 2) 0 snakeC3).head.x = 600 := by
    unfold moveSnake
    rw [if_pos (show snakeC3.alive = true from rfl)]
    dsimp only
    rw [if_neg (show ¬ (0 : ℝ) < snakeC3.slowedUntil by norm_num [snakeC3])]
    rw [show snakeC3.angle = Real.pi from rfl, Real.cos_pi,
      show snakeC3.head.x = (1 / 2 : ℝ) from rfl,
      show (1 / 2 : ℝ) + (-1) * (5 / 2) = -2 by norm_num]
    unfold wrapCoord
    rw [if_pos (by norm_num : (-2 : ℝ) < 0)]
    dsimp only
    rw [if_neg (by norm_num : ¬ (600 : ℝ) > 600)]
  exact ⟨hx, by rw [hx]; norm_num⟩

/-- Claim C10: the slow factor is the constant 0 (not a partial reduction),
so a slowed live snake's head is completely unchanged by the movement step
(the shared base speed `speed0` is a read-only input of `moveSnake` and is
untouched by construction). -/
theorem slowed_snake_head_unchanged :
    SLOW_FACTOR = 0 ∧
    ∀ (w h speed0 now : ℝ) (s : Snake ℝ), now < s.slowedUntil →
      0 ≤ s.head.x → s.head.x ≤ w → 0 ≤ s.head.y → s.head.y ≤ h →
      (moveSnake w h speed0 now s).head = s.head := by
  refine ⟨rfl, fun w h speed0 now s hslow hx0 hxw hy0 hyh => ?_⟩
  unfold moveSnake
  by_cases halive : s.alive = true
  · rw [if_pos halive]
    dsimp only
    rw [if_pos hslow]
    simp only [SLOW_FACTOR, mul_zero, add_zero]
    rw [wrapCoord_eq_self hx0 hxw, wrapCoord_eq_self hy0 hyh]
  · rw [if_neg halive]

/-- Witness for the C10 theorem at a concrete slowed snake. -/
theorem slowed_snake_head_unchanged_witness :
    (0 : ℝ) < sA.slowedUntil ∧
    (moveSnake 600 600 (5 / 2) 0 sA).head = sA.head := by
  refine ⟨by norm_num [sA], ?_⟩
  exact slowed_snake_head_unchanged.2 600 600 (5 / 2) 0 sA (by norm_num [sA])
    (by norm_num [sA]) (by norm_num [sA]) (by norm_num [sA]) (by norm_num [sA])

/-- Claim C4: in hard difficulty the shared speed after `n` pickups by either
snake is `min (5 + n * 0.15) 12`; in easy difficulty it stays `2.5` no matter
how many pickups occur. -/
theorem speed_after_pickups (n : ℕ) :
    (speedOnPickup Difficulty.hard)^[n] (baseSpeed Difficulty.hard)
        = min (5 + (n : ℚ) * (15 / 100)) 12 ∧
    (speedOnPickup Difficulty.easy)^[n] (baseSpeed Difficulty.easy) = 5 / 2 := by
  constructor
  · induction n with
    | zero =>
      simp only [Function.iterate_zero_apply, Nat.cast_zero, zero_mul, add_zero]
      rw [min_eq_left (by norm_num)]
      rfl
    | succ k ih =>
      rw [Function.iterate_succ_apply', ih]
      simp only [speedOnPickup]
      rcases le_total ((5 : ℚ) + k * (15 / 100)) 12 with hle | hge
      · rw [min_eq_left hle]
        congr 1
        push_cast
        ring
      · rw [min_eq_right hge,
          min_eq_right (show (12 : ℚ) ≤ 12 + 15 / 100 by norm_num),
          min_eq_right (show (12 : ℚ) ≤ 5 + (((k + 1 : ℕ)) : ℚ) * (15 / 100) by
            push_cast; linarith)]
  · exact (Function.iterate_fixed rfl n).trans rfl

lemma generateFood_valid (w h : ℚ) (mode : Mode) (s1 s2 : Snake ℚ) :
    ∀ (cands : List (ℚ × ℚ)) (f : Vec ℚ) (rest : List (ℚ × ℚ)),
      generateFood w h mode s1 s2 cands = some (f, rest) →
      foodValid f (snakesForMode mode s1 s2) = true ∧
      ∃ c : ℚ × ℚ, c ∈ cands ∧ f = candToPoint w h c := by
  intro cands
  induction cands with
  | nil => intro f rest hres; simp [generateFood] at hres
  | cons c cs ih =>
    intro f rest hres
    simp only [generateFood] at hres
    split_ifs at hres with hv
    · simp only [Option.some.injEq, Prod.mk.injEq] at hres
      obtain ⟨hf, -⟩ := hres
      exact ⟨by rw [← hf]; exact hv, c, List.mem_cons_self c cs, hf.symm⟩
    · obtain ⟨hvalid, c', hmem, hf⟩ := ih f rest hres
      exact ⟨hvalid, c', List.mem_cons_of_mem c hmem, hf⟩

/-- Claim C7 (amended): whenever food generation returns, the food lies in
the inset margin `[20, w-20] × [20, h-20]`, and its distance to every
checked snake's head is at least 50 (squared: `50^2 ≤ distSq`) and to every
body segment at least 30.  ("At least" corrects the claim's "exceeds": the
bounds are attained, see the counterexample.) -/
theorem generateFood_spec (w h : ℚ) (mode : Mode) (s1 s2 : Snake ℚ)
    (cands : List (ℚ × ℚ)) (f : Vec ℚ) (rest : List (ℚ × ℚ))
    (hw : 40 ≤ w) (hh : 40 ≤ h)
    (hc : ∀ c ∈ cands, 0 ≤ c.1 ∧ c.1 ≤ 1 ∧ 0 ≤ c.2 ∧ c.2 ≤ 1)
    (hres : generateFood w h mode s1 s2 cands = some (f, rest)) :
    (20 ≤ f.x ∧ f.x ≤ w - 20 ∧ 20 ≤ f.y ∧ f.y ≤ h - 20) ∧
    ∀ s ∈ snakesForMode mode s1 s2,
      50 ^ 2 ≤ distSq f s.head ∧ ∀ seg ∈ s.body, 30 ^ 2 ≤ distSq f seg := by
  obtain ⟨hvalid, c, hmem, hf⟩ := generateFood_valid w h mode s1 s2 cands f rest hres
  obtain ⟨hc1, hc2, hc3, hc4⟩ := hc c hmem
  constructor
  · subst hf
    unfold candToPoint
    refine ⟨?_, ?_, ?_, ?_⟩ <;> dsimp only <;> nlinarith
  · intro s hs
    simp only [foodValid, List.all_eq_true, Bool.and_eq_true, Bool.not_eq_true',
      decide_eq_false_iff_not, not_lt] at hvalid
    obtain ⟨hhead, hbody⟩ := hvalid s hs
    exact ⟨hhead, fun seg hseg => hbody seg hseg⟩

/-- Witness for the amended C7 theorem at a concrete call. -/
theorem generateFood_spec_witness :
    ((40 : ℚ) ≤ 600) ∧
    generateFood 600 600 Mode.single snakeB snakeB [(0, 0)] = some (⟨20, 20⟩, []) ∧
    ((20 ≤ (⟨20, 20⟩ : Vec ℚ).x ∧ (⟨20, 20⟩ : Vec ℚ).x ≤ 600 - 20 ∧
      20 ≤ (⟨20, 20⟩ : Vec ℚ).y ∧ (⟨20, 20⟩ : Vec ℚ).y ≤ 600 - 20) ∧
     ∀ s ∈ snakesForMode Mode.single snakeB snakeB,
       50 ^ 2 ≤ distSq ⟨20, 20⟩ s.head ∧ ∀ seg ∈ s.body, 30 ^ 2 ≤ distSq ⟨20, 20⟩ seg) :=
  ⟨by norm_num,
    by norm_num [generateFood, foodValid, candToPoint, snakesForMode, distSq, snakeB],
    generateFood_spec 600 600 Mode.single snakeB snakeB [(0, 0)] ⟨20, 20⟩ []
      (by norm_num) (by norm_num)
      (by rintro c hcm; simp only [List.mem_singleton] at hcm; subst hcm; norm_num)
      (by norm_num [generateFood, foodValid, candToPoint, snakesForMode, distSq, snakeB])⟩

/-- Claim C7 counterexample: a returned food can sit at distance exactly 50
from a live snake's head, so its distance does not strictly exceed the
head-exclusion radius 50. -/
theorem generateFood_strict_counterexample :
    snakeC.alive = true ∧
    generateFood 600 600 Mode.single snakeC snakeC [(5 / 56, 0)] = some (⟨70, 20⟩, []) ∧
    distSq ⟨70, 20⟩ snakeC.head = 50 ^ 2 ∧
    ¬ (50 ^ 2 < distSq ⟨70, 20⟩ snakeC.head) := by
  norm_num [generateFood, foodValid, candToPoint, snakesForMode, distSq, snakeC]

lemma normDown_le_pi (t : ℝ) : normDown t ≤ Real.pi := by
  induction t using normDown.induct with
  | case1 t ht ih =>
    unfold normDown
    rw [if_pos ht]
    exact ih
  | case2 t ht =>
    unfold normDown
    rw [if_neg ht]
    exact le_of_not_lt ht

lemma normUp_mem (t : ℝ) : t ≤ Real.pi → -Real.pi ≤ normUp t ∧ normUp t ≤ Real.pi := by
  induction t using normUp.induct with
  | case1 t ht ih =>
    intro _
    unfold normUp
    rw [if_pos ht]
    exact ih (by linarith)
  | case2 t ht =>
    intro hle
    unfold normUp
    rw [if_neg ht]
    exact ⟨le_of_not_lt ht, hle⟩

/-- Claim C5 (amended): after the steering update `angle = targetAngle`, and
`targetAngle` lies in the closed interval `[-pi, pi]` (the normalization
loops use strict comparisons, so exactly `-pi` is a fixed point and the
half-open interval `(-pi, pi]` of the claim does not hold). -/
theorem updateSnake_angle_spec (left right : Bool) (rotationSpeed : ℝ) (s : Snake ℝ) :
    (updateSnake left right rotationSpeed s).angle
        = (updateSnake left right rotationSpeed s).targetAngle ∧
    -Real.pi ≤ (updateSnake left right rotationSpeed s).targetAngle ∧
    (updateSnake left right rotationSpeed s).targetAngle ≤ Real.pi := by
  unfold updateSnake normalizeAngle
  dsimp only
  exact ⟨rfl, (normUp_mem _ (normDown_le_pi _)).1, (normUp_mem _ (normDown_le_pi _)).2⟩

/-- Claim C5 counterexample: from a target angle inside `(-pi, pi]`, one held
left turn at rotation speed 0.07 drives `targetAngle` to exactly `-pi`,
which is outside the claimed interval `(-pi, pi]`. -/
theorem updateSnake_boundary_counterexample :
    (-Real.pi < snakeC5.targetAngle ∧ snakeC5.targetAngle ≤ Real.pi) ∧
    (updateSnake true false (7 / 100) snakeC5).targetAngle = -Real.pi ∧
    ¬ (-Real.pi < (updateSnake true false (7 / 100) snakeC5).targetAngle) := by
  have hpi := Real.pi_gt_three
  have h1 : normDown (-Real.pi) = -Real.pi := by
    unfold normDown
    rw [if_neg (by linarith : ¬ -Real.pi > Real.pi)]
  have h2 : normUp (-Real.pi) = -Real.pi := by
    unfold normUp
    rw [if_neg (by linarith : ¬ -Real.pi < -Real.pi)]
  have ht : (updateSnake true false (7 / 100) snakeC5).targetAngle = -Real.pi := by
    unfold updateSnake
    dsimp only
    rw [if_pos rfl, if_neg (by simp : ¬ (false = true)),
      show snakeC5.targetAngle = 7 / 100 - Real.pi from rfl,
      show (7 : ℝ) / 100 - Real.pi - 7 / 100 = -Real.pi by ring]
    unfold normalizeAngle
    rw [h1, h2]
  refine ⟨⟨?_, ?_⟩, ht, by rw [ht]; exact lt_irrefl _⟩
  · rw [show snakeC5.targetAngle = 7 / 100 - Real.pi from rfl]
    linarith
  · rw [show snakeC5.targetAngle = 7 / 100 - Real.pi from rfl]
    linarith

lemma wrapDelta_small {d dim : ℝ} (hd : |d| ≤ dim / 2) : wrapDelta d dim = d := by
  unfold wrapDelta
  rw [if_neg (not_lt.mpr hd)]

/-- Claim C6: in a body-update step, when the wrap-corrected distance is at
most `SEGMENT_SPACING` the segment is unchanged; when it exceeds
`SEGMENT_SPACING` the new position is the wrap of the point that lies
exactly `SEGMENT_SPACING` away from the target along the wrap-corrected
direction (its pre-wrap squared distance to the target is exactly
`SEGMENT_SPACING ^ 2`). -/
theorem segStep_spec (w h : ℝ) (target current : Vec ℝ) :
    (segDist w h target current ≤ SEGMENT_SPACING →
      segStep w h target current = current) ∧
    (SEGMENT_SPACING < segDist w h target current →
      ∃ q : Vec ℝ,
        segStep w h target current = ⟨wrapPos q.x w, wrapPos q.y h⟩ ∧
        q.x = target.x - (segDelta w h target current).x *
            (SEGMENT_SPACING / segDist w h target current) ∧
        q.y = target.y - (segDelta w h target current).y *
            (SEGMENT_SPACING / segDist w h target current) ∧
        (q.x - target.x) ^ 2 + (q.y - target.y) ^ 2 = SEGMENT_SPACING ^ 2) := by
  constructor
  · intro hle
    unfold segStep
    rw [if_neg (not_lt.mpr hle)]
  · intro hgt
    have hS : (0 : ℝ) < SEGMENT_SPACING := by norm_num [SEGMENT_SPACING]
    have hdpos : 0 < segDist w h target current := lt_trans hS hgt
    have hne : segDist w h target current ≠ 0 := ne_of_gt hdpos
    refine ⟨⟨target.x - (segDelta w h target current).x *
        (SEGMENT_SPACING / segDist w h target current),
      target.y - (segDelta w h target current).y *
        (SEGMENT_SPACING / segDist w h target current)⟩, ?_, rfl, rfl, ?_⟩
    · unfold segStep
      rw [if_pos hgt]
    · have hsq : segDist w h target current ^ 2 =
          (segDelta w h target current).x * (segDelta w h target current).x +
          (segDelta w h target current).y * (segDelta w h target current).y := by
        unfold segDist
        exact Real.sq_sqrt (add_nonneg (mul_self_nonneg _) (mul_self_nonneg _))
      dsimp only
      set dx := (segDelta w h target current).x with hdx
      set dy := (segDelta w h target current).y with hdy
      set dist := segDist w h target current with hdist
      have expand : (target.x - dx * (SEGMENT_SPACING / dist) - target.x) ^ 2 +
          (target.y - dy * (SEGMENT_SPACING / dist) - target.y) ^ 2 =
          (dx * dx + dy * dy) * (SEGMENT_SPACING / dist) ^ 2 := by ring
      rw [expand, ← hsq, div_pow, mul_comm, div_mul_cancel₀ _ (pow_ne_zero 2 hne)]

lemma segDelta_concrete_ten : segDelta 600 600 ⟨0, 0⟩ ⟨10, 0⟩ = ⟨-10, 0⟩ := by
  unfold segDelta
  dsimp only
  rw [show (0 : ℝ) - 10 = -10 by norm_num, show (0 : ℝ) - 0 = 0 by norm_num,
    wrapDelta_small (by rw [abs_le]; constructor <;> norm_num),
    wrapDelta_small (by rw [abs_le]; constructor <;> norm_num)]

lemma segDist_concrete_ten : segDist 600 600 ⟨0, 0⟩ ⟨10, 0⟩ = 10 := by
  unfold segDist
  rw [segDelta_concrete_ten]
  dsimp only
  rw [show (-10 : ℝ) * -10 + 0 * 0 = 10 ^ 2 by norm_num,
    Real.sqrt_sq (by norm_num : (0 : ℝ) ≤ 10)]

lemma segDelta_concrete_five : segDelta 600 600 ⟨0, 0⟩ ⟨3, 4⟩ = ⟨-3, -4⟩ := by
  unfold segDelta
  dsimp only
  rw [show (0 : ℝ) - 3 = -3 by norm_num, show (0 : ℝ) - 4 = -4 by norm_num,
    wrapDelta_small (by rw [abs_le]; constructor <;> norm_num),
    wrapDelta_small (by rw [abs_le]; constructor <;> norm_num)]

lemma segDist_concrete_five : segDist 600 600 ⟨0, 0⟩ ⟨3, 4⟩ = 5 := by
  unfold segDist
  rw [segDelta_concrete_five]
  dsimp only
  rw [show (-3 : ℝ) * -3 + -4 * -4 = 5 ^ 2 by norm_num,
    Real.sqrt_sq (by norm_num : (0 : ℝ) ≤ 5)]

/-- Witness for the C6 theorem: both branches at concrete segments. -/
theorem segStep_spec_witness :
    (segDist 600 600 ⟨0, 0⟩ ⟨3, 4⟩ ≤ SEGMENT_SPACING ∧
     segStep 600 600 ⟨0, 0⟩ ⟨3, 4⟩ = (⟨3, 4⟩ : Vec ℝ)) ∧
    (SEGMENT_SPACING < segDist 600 600 ⟨0, 0⟩ ⟨10, 0⟩ ∧
     ∃ q : Vec ℝ,
       segStep 600 600 ⟨0, 0⟩ ⟨10, 0⟩ = ⟨wrapPos q.x 600, wrapPos q.y 600⟩ ∧
       q.x = (⟨0, 0⟩ : Vec ℝ).x - (segDelta 600 600 ⟨0, 0⟩ ⟨10, 0⟩).x *
           (SEGMENT_SPACING / segDist 600 600 ⟨0, 0⟩ ⟨10, 0⟩) ∧
       q.y = (⟨0, 0⟩ : Vec ℝ).y - (segDelta 600 600 ⟨0, 0⟩ ⟨10, 0⟩).y *
           (SEGMENT_SPACING / segDist 600 600 ⟨0, 0⟩ ⟨10, 0⟩) ∧
       (q.x - (⟨0, 0⟩ : Vec ℝ).x) ^ 2 + (q.y - (⟨0, 0⟩ : Vec ℝ).y) ^ 2 =
         SEGMENT_SPACING ^ 2) := by
  have hle : segDist 600 600 ⟨0, 0⟩ ⟨3, 4⟩ ≤ SEGMENT_SPACING := by
    rw [segDist_concrete_five]
    norm_num [SEGMENT_SPACING]
  have hgt : SEGMENT_SPACING < segDist 600 600 ⟨0, 0⟩ ⟨10, 0⟩ := by
    rw [segDist_concrete_ten]
    norm_num [SEGMENT_SPACING]
  exact ⟨⟨hle, (segStep_spec 600 600 ⟨0, 0⟩ ⟨3, 4⟩).1 hle⟩,
    ⟨hgt, (segStep_spec 600 600 ⟨0, 0⟩ ⟨10, 0⟩).2 hgt⟩⟩

/-- Claim C9: a fire request while `now < shootCooldown` is ignored with no
state change; otherwise exactly one projectile is appended, positioned at
the shooter's head, with velocity of magnitude `PROJECTILE_SPEED` along the
shooter's current angle, tagged with the shooter's number and spawn time,
and the shooter's cooldown becomes `now + SHOOT_COOLDOWN`. -/
theorem shoot_spec (s : Snake ℝ) (playerNumber : ℕ) (now : ℝ)
    (projectiles : List (Projectile ℝ)) :
    (now < s.shootCooldown → shoot s playerNumber now projectiles = (projectiles, s)) ∧
    (¬ now < s.shootCooldown →
      ∃ p : Projectile ℝ,
        (shoot s playerNumber now projectiles).1 = projectiles ++ [p] ∧
        p.x = s.head.x ∧ p.y = s.head.y ∧
        p.vx = Real.cos s.angle * PROJECTILE_SPEED ∧
        p.vy = Real.sin s.angle * PROJECTILE_SPEED ∧
        p.vx ^ 2 + p.vy ^ 2 = PROJECTILE_SPEED ^ 2 ∧
        p.owner = playerNumber ∧ p.createdAt = now ∧
        (shoot s playerNumber now projectiles).2 =
          { s with shootCooldown := now + SHOOT_COOLDOWN }) := by
  constructor
  · intro hlt
    unfold shoot
    rw [if_pos hlt]
  · intro hge
    unfold shoot
    rw [if_neg hge]
    refine ⟨_, rfl, rfl, rfl, rfl, rfl, ?_, rfl, rfl, rfl⟩
    dsimp only
    have h := Real.sin_sq_add_cos_sq s.angle
    calc (Real.cos s.angle * PROJECTILE_SPEED) ^ 2 +
        (Real.sin s.angle * PROJECTILE_SPEED) ^ 2
        = (Real.sin s.angle ^ 2 + Real.cos s.angle ^ 2) * PROJECTILE_SPEED ^ 2 := by
          ring
      _ = PROJECTILE_SPEED ^ 2 := by rw [h, one_mul]

/-- Witness for the C9 theorem: both branches at a concrete snake. -/
theorem shoot_spec_witness :
    shoot sA 1 (-1) [] = ([], sA) ∧
    (shoot sA 1 5 []).1 = [⟨300, 300, 8, 0, 1, 5⟩] ∧
    (shoot sA 1 5 []).2.shootCooldown = 1005 := by
  obtain ⟨p, hlist, hx, hy, hvx, hvy, hmag, hown, hct, hsnake⟩ :=
    (shoot_spec sA 1 5 []).2 (by norm_num [sA])
  have hp : p = ⟨300, 300, 8, 0, 1, 5⟩ := by
    obtain ⟨px, py, pvx, pvy, pown, pct⟩ := p
    simp only at hx hy hvx hvy hown hct
    rw [show sA.head.x = (300 : ℝ) from rfl] at hx
    rw [show sA.head.y = (300 : ℝ) from rfl] at hy
    rw [show sA.angle = (0 : ℝ) from rfl, Real.cos_zero, one_mul,
      show PROJECTILE_SPEED = (8 : ℝ) from rfl] at hvx
    rw [show sA.angle = (0 : ℝ) from rfl, Real.sin_zero, zero_mul] at hvy
    subst hx hy hvx hvy hown hct
    rfl
  refine ⟨(shoot_spec sA 1 (-1) []).1 (by norm_num [sA]), ?_, ?_⟩
  · rw [hlist, hp, List.nil_append]
  · rw [hsnake]
    show (5 : ℝ) + SHOOT_COOLDOWN = 1005
    norm_num [SHOOT_COOLDOWN]

lemma checkProjectileCollisions_cons (mode : Mode) (now : ℚ) (p : Projectile ℚ)
    (rest : List (Projectile ℚ)) (s1 s2 : Snake ℚ) :
    checkProjectileCollisions mode now (p :: rest) s1 s2 =
      ((if (processProj mode now s1 s2 p).1 then
          p :: (checkProjectileCollisions mode now rest
            (processProj mode now s1 s2 p).2.1 (processProj mode now s1 s2 p).2.2).1
        else (checkProjectileCollisions mode now rest
          (processProj mode now s1 s2 p).2.1 (processProj mode now s1 s2 p).2.2).1),
       (checkProjectileCollisions mode now rest
         (processProj mode now s1 s2 p).2.1 (processProj mode now s1 s2 p).2.2).2) :=
  rfl

/-- Claim C8: one step of projectile hit resolution only ever tests a
projectile against the head of the snake that is not its owner (the owner's
snake is never modified); within the hit radius of the live non-owner's
head the projectile is dropped from the surviving list and that snake's
`slowedUntil` is overwritten to `now + SLOW_DURATION`. -/
theorem processProj_spec (mode : Mode) (now : ℚ) (s1 s2 : Snake ℚ) (p : Projectile ℚ) :
    (p.owner ≠ 2 → (processProj mode now s1 s2 p).2.1 = s1) ∧
    (p.owner ≠ 1 → (processProj mode now s1 s2 p).2.2 = s2) ∧
    (p.owner = 2 → s1.alive = true → distSq ⟨p.x, p.y⟩ s1.head < 10 ^ 2 →
      (processProj mode now s1 s2 p).1 = false ∧
      (processProj mode now s1 s2 p).2.1.slowedUntil = now + SLOW_DURATION) ∧
    (p.owner = 1 → mode = Mode.multiplayer → s2.alive = true →
      distSq ⟨p.x, p.y⟩ s2.head < 10 ^ 2 →
      (processProj mode now s1 s2 p).1 = false ∧
      (processProj mode now s1 s2 p).2.2.slowedUntil = now + SLOW_DURATION) ∧
    (∀ rest : List (Projectile ℚ), (processProj mode now s1 s2 p).1 = false →
      (checkProjectileCollisions mode now (p :: rest) s1 s2).1 =
        (checkProjectileCollisions mode now rest (processProj mode now s1 s2 p).2.1
          (processProj mode now s1 s2 p).2.2).1) := by
  have hmain : (p.owner ≠ 2 → (processProj mode now s1 s2 p).2.1 = s1) ∧
      (p.owner ≠ 1 → (processProj mode now s1 s2 p).2.2 = s2) ∧
      (p.owner = 2 → s1.alive = true → distSq ⟨p.x, p.y⟩ s1.head < 10 ^ 2 →
        (processProj mode now s1 s2 p).1 = false ∧
        (processProj mode now s1 s2 p).2.1.slowedUntil = now + SLOW_DURATION) ∧
      (p.owner = 1 → mode = Mode.multiplayer → s2.alive = true →
        distSq ⟨p.x, p.y⟩ s2.head < 10 ^ 2 →
        (processProj mode now s1 s2 p).1 = false ∧
        (processProj mode now s1 s2 p).2.2.slowedUntil = now + SLOW_DURATION) := by
    unfold processProj
    split_ifs with h1 h2
    · exact ⟨fun hne => absurd h1.1 hne, fun _ => rfl,
        fun _ _ _ => ⟨rfl, rfl⟩,
        fun ho1 _ _ _ => by rw [ho1] at h1; exact absurd h1.1 (by norm_num)⟩
    · exact ⟨fun _ => rfl, fun hne => absurd h2.1 hne,
        fun ho2 halive hdist => absurd ⟨ho2, halive, hdist⟩ h1,
        fun _ _ _ _ => ⟨rfl, rfl⟩⟩
    · exact ⟨fun _ => rfl, fun _ => rfl,
        fun ho2 halive hdist => absurd ⟨ho2, halive, hdist⟩ h1,
        fun ho1 hmode halive hdist => absurd ⟨ho1, halive, hmode, hdist⟩ h2⟩
  refine ⟨hmain.1, hmain.2.1, hmain.2.2.1, hmain.2.2.2, fun rest hk => ?_⟩
  rw [checkProjectileCollisions_cons]
  simp only [hk, Bool.false_eq_true, if_false]

/-- Witness for the C8 theorem: a projectile owned by player 2 within the
hit radius of Player 1's head is consumed and stamps the slow effect. -/
theorem processProj_spec_witness :
    p0.owner = 2 ∧ s1C8.alive = true ∧ distSq ⟨p0.x, p0.y⟩ s1C8.head < 10 ^ 2 ∧
    (processProj Mode.multiplayer 0 s1C8 snakeB p0).1 = false ∧
    (processProj Mode.multiplayer 0 s1C8 snakeB p0).2.1.slowedUntil =
      0 + SLOW_DURATION := by
  have hdist : distSq ⟨p0.x, p0.y⟩ s1C8.head < 10 ^ 2 := by
    norm_num [distSq, p0, s1C8]
  obtain ⟨hk, hs⟩ := (processProj_spec Mode.multiplayer 0 s1C8 snakeB p0).2.2.1
    rfl rfl hdist
  exact ⟨rfl, rfl, hdist, hk, hs⟩

lemma selfHit_congr {s t : Snake ℚ} (hh : s.head = t.head) (hb : s.body = t.body) :
    selfHit s = selfHit t := by
  unfold selfHit
  rw [hh, hb]

lemma p1SelfCheck_multi (st : GameState) (hm : st.mode = Mode.multiplayer) :
    p1SelfCheck st =
      if selfHit st.snake1 then
        { st with snake1 := { st.snake1 with alive := false },
                  winner := "Player 2 (Blue)", gameOver := true,
                  reason := "Player 1 (Green) hit themselves!" }
      else st := by
  unfold p1SelfCheck
  rw [hm]

lemma p1SelfCheck_preserve (st : GameState) :
    (p1SelfCheck st).snake1.head = st.snake1.head ∧
    (p1SelfCheck st).snake1.body = st.snake1.body ∧
    (p1SelfCheck st).snake1.length = st.snake1.length ∧
    (p1SelfCheck st).snake2 = st.snake2 ∧
    (p1SelfCheck st).food = st.food ∧
    (p1SelfCheck st).score1 = st.score1 ∧
    (p1SelfCheck st).score2 = st.score2 ∧
    (p1SelfCheck st).mode = st.mode := by
  unfold p1SelfCheck
  split_ifs with hs
  · cases hmode : st.mode <;> simp [hmode]
  · simp

lemma p1VsP2Check_preserve (st : GameState) :
    (p1VsP2Check st).snake1.head = st.snake1.head ∧
    (p1VsP2Check st).snake1.body = st.snake1.body ∧
    (p1VsP2Check st).snake1.length = st.snake1.length ∧
    (p1VsP2Check st).snake2.head = st.snake2.head ∧
    (p1VsP2Check st).snake2.body = st.snake2.body ∧
    (p1VsP2Check st).snake2.length = st.snake2.length ∧
    (p1VsP2Check st).food = st.food ∧
    (p1VsP2Check st).score1 = st.score1 ∧
    (p1VsP2Check st).score2 = st.score2 ∧
    (p1VsP2Check st).mode = st.mode := by
  unfold p1VsP2Check
  split_ifs <;> simp

lemma p2SelfCheck_preserve (st : GameState) :
    (p2SelfCheck st).snake1 = st.snake1 ∧
    (p2SelfCheck st).snake2.head = st.snake2.head ∧
    (p2SelfCheck st).snake2.body = st.snake2.body ∧
    (p2SelfCheck st).snake2.length = st.snake2.length ∧
    (p2SelfCheck st).food = st.food ∧
    (p2SelfCheck st).score1 = st.score1 ∧
    (p2SelfCheck st).score2 = st.score2 ∧
    (p2SelfCheck st).mode = st.mode := by
  unfold p2SelfCheck
  split_ifs <;> simp

lemma p2VsP1Check_preserve (st : GameState) :
    (p2VsP1Check st).snake1 = st.snake1 ∧
    (p2VsP1Check st).snake2.head = st.snake2.head ∧
    (p2VsP1Check st).snake2.body = st.snake2.body ∧
    (p2VsP1Check st).snake2.length = st.snake2.length ∧
    (p2VsP1Check st).food = st.food ∧
    (p2VsP1Check st).score1 = st.score1 ∧
    (p2VsP1Check st).score2 = st.score2 ∧
    (p2VsP1Check st).mode = st.mode := by
  unfold p2VsP1Check
  split_ifs <;> simp

lemma p1FoodCheck_some (w h : ℚ) (food0 : Vec ℚ) (cands : List (ℚ × ℚ))
    (st stF : GameState) (cF : List (ℚ × ℚ))
    (hres : p1FoodCheck w h food0 cands st = some (stF, cF)) :
    stF.snake1.head = st.snake1.head ∧
    stF.snake1.body = st.snake1.body ∧
    stF.snake1.alive = st.snake1.alive ∧
    stF.snake2 = st.snake2 ∧
    stF.mode = st.mode ∧
    stF.winner = st.winner ∧
    stF.gameOver = st.gameOver ∧
    stF.score2 = st.score2 := by
  unfold p1FoodCheck at hres
  split_ifs at hres with hf
  · dsimp only at hres
    rcases hgen : generateFood w h st.mode
        { st.snake1 with length := st.snake1.length + 5 } st.snake2 cands with _ | fr
    · rw [hgen] at hres
      exact absurd hres (by simp)
    · obtain ⟨f, rest⟩ := fr
      rw [hgen] at hres
      simp only [Option.some.injEq, Prod.mk.injEq] at hres
      obtain ⟨h1', -⟩ := hres
      rw [← h1']
      exact ⟨rfl, rfl, rfl, rfl, rfl, rfl, rfl, rfl⟩
  · simp only [Option.some.injEq, Prod.mk.injEq] at hres
    obtain ⟨h1', -⟩ := hres
    rw [← h1']
    exact ⟨rfl, rfl, rfl, rfl, rfl, rfl, rfl, rfl⟩

lemma p1FoodCheck_pickup (w h : ℚ) (food0 : Vec ℚ) (cands : List (ℚ × ℚ))
    (st stF : GameState) (cF : List (ℚ × ℚ))
    (hf : distSq st.snake1.head food0 < 15 ^ 2)
    (hres : p1FoodCheck w h food0 cands st = some (stF, cF)) :
    stF.score1 = st.score1 + 10 ∧
    stF.snake1.length = st.snake1.length + 5 ∧
    generateFood w h st.mode { st.snake1 with length := st.snake1.length + 5 }
      st.snake2 cands = some (stF.food, cF) := by
  unfold p1FoodCheck at hres
  rw [if_pos hf] at hres
  dsimp only at hres
  rcases hgen : generateFood w h st.mode
      { st.snake1 with length := st.snake1.length + 5 } st.snake2 cands with _ | fr
  · rw [hgen] at hres
    exact absurd hres (by simp)
  · obtain ⟨f, rest⟩ := fr
    rw [hgen] at hres
    simp only [Option.some.injEq, Prod.mk.injEq] at hres
    obtain ⟨h1', h2'⟩ := hres
    subst h2'
    rw [← h1']
    exact ⟨rfl, rfl, rfl⟩

lemma p2FoodCheck_some (w h : ℚ) (food0 : Vec ℚ) (cands : List (ℚ × ℚ))
    (st stF : GameState) (cF : List (ℚ × ℚ))
    (hres : p2FoodCheck w h food0 cands st = some (stF, cF)) :
    stF.snake1 = st.snake1 ∧
    stF.snake2.head = st.snake2.head ∧
    stF.snake2.body = st.snake2.body ∧
    stF.snake2.alive = st.snake2.alive ∧
    stF.mode = st.mode ∧
    stF.winner = st.winner ∧
    stF.gameOver = st.gameOver ∧
    stF.score1 = st.score1 := by
  unfold p2FoodCheck at hres
  split_ifs at hres with hf
  · dsimp only at hres
    rcases hgen : generateFood w h st.mode st.snake1
        { st.snake2 with length := st.snake2.length + 5 } cands with _ | fr
    · rw [hgen] at hres
      exact absurd hres (by simp)
    · obtain ⟨f, rest⟩ := fr
      rw [hgen] at hres
      simp only [Option.some.injEq, Prod.mk.injEq] at hres
      obtain ⟨h1', -⟩ := hres
      rw [← h1']
      exact ⟨rfl, rfl, rfl, rfl, rfl, rfl, rfl, rfl⟩
  · simp only [Option.some.injEq, Prod.mk.injEq] at hres
    obtain ⟨h1', -⟩ := hres
    rw [← h1']
    exact ⟨rfl, rfl, rfl, rfl, rfl, rfl, rfl, rfl⟩

lemma p1Block_spec (w h : ℚ) (food0 : Vec ℚ) (cands : List (ℚ × ℚ))
    (st stA : GameState) (cA : List (ℚ × ℚ)) (hm : st.mode = Mode.multiplayer)
    (h1 : st.snake1.alive = true) (h2 : st.snake2.alive = true)
    (hb : p1Block w h food0 cands st = some (stA, cA)) :
    stA.mode = Mode.multiplayer ∧
    stA.snake1.head = st.snake1.head ∧
    stA.snake1.body = st.snake1.body ∧
    stA.snake2.head = st.snake2.head ∧
    stA.snake2.body = st.snake2.body ∧
    stA.snake2.length = st.snake2.length ∧
    stA.score2 = st.score2 ∧
    (distSq st.snake1.head st.snake2.head < 10 ^ 2 →
      stA.snake1.alive = false ∧ stA.snake2.alive = false ∧
      stA.winner = "Tie" ∧ stA.gameOver = true) ∧
    (¬ distSq st.snake1.head st.snake2.head < 10 ^ 2 →
      stA.snake2.alive = true ∧
      ((selfHit st.snake1 = true ∨ bodyHit st.snake1.head st.snake2.body = true) →
        stA.snake1.alive = false ∧ stA.winner = "Player 2 (Blue)" ∧
        stA.gameOver = true) ∧
      (selfHit st.snake1 = false → bodyHit st.snake1.head st.snake2.body = false →
        stA.snake1.alive = true ∧ stA.winner = st.winner ∧
        stA.gameOver = st.gameOver)) := by
  unfold p1Block at hb
  rw [if_pos h1] at hb
  rcases hfood : p1FoodCheck w h food0 cands st with _ | fr
  · rw [hfood] at hb
    exact absurd hb (by simp)
  obtain ⟨stF, cF⟩ := fr
  rw [hfood] at hb
  simp only [Option.map_some', Option.some.injEq, Prod.mk.injEq] at hb
  obtain ⟨hA, -⟩ := hb
  obtain ⟨Fh, Fb, Fal, Fs2, Fm, Fw, Fg, Fsc2⟩ :=
    p1FoodCheck_some w h food0 cands st stF cF hfood
  have hmF : stF.mode = Mode.multiplayer := Fm.trans hm
  have hsh : selfHit stF.snake1 = selfHit st.snake1 := selfHit_congr Fh Fb
  subst hA
  rw [p1SelfCheck_multi stF hmF]
  by_cases hself : selfHit st.snake1 = true <;>
    by_cases hho : distSq st.snake1.head st.snake2.head < 10 ^ 2 <;>
      by_cases hbody : bodyHit st.snake1.head st.snake2.body = true <;>
        simp [p1VsP2Check, hsh, hself, hho, hbody, Fh, Fb, Fal, Fs2, Fm, Fw, Fg,
          Fsc2, hm, h1, h2, hmF]

lemma p2Block_spec (w h : ℚ) (food0 : Vec ℚ) (cands : List (ℚ × ℚ))
    (st stB : GameState) (cB : List (ℚ × ℚ)) (hm : st.mode = Mode.multiplayer)
    (hb : p2Block w h food0 cands st = some (stB, cB)) :
    stB.snake1.alive = st.snake1.alive ∧
    stB.score1 = st.score1 ∧
    stB.snake1.length = st.snake1.length ∧
    stB.snake1.head = st.snake1.head ∧
    stB.snake1.body = st.snake1.body ∧
    (st.snake2.alive = false → stB = st) ∧
    (st.snake2.alive = true →
      ((selfHit st.snake2 = true ∨
          (st.snake1.alive = true ∧ bodyHit st.snake2.head st.snake1.body = true)) →
        stB.snake2.alive = false ∧ stB.winner = "Player 1 (Green)" ∧
        stB.gameOver = true) ∧
      (selfHit st.snake2 = false →
        (st.snake1.alive = true → bodyHit st.snake2.head st.snake1.body = false) →
        stB.snake2.alive = true ∧ stB.winner = st.winner ∧
        stB.gameOver = st.gameOver)) := by
  unfold p2Block at hb
  by_cases hg : st.mode = Mode.multiplayer ∧ st.snake2.alive = true
  · rw [if_pos hg] at hb
    rcases hfood : p2FoodCheck w h food0 cands st with _ | fr
    · rw [hfood] at hb
      exact absurd hb (by simp)
    obtain ⟨stF, cF⟩ := fr
    rw [hfood] at hb
    simp only [Option.map_some', Option.some.injEq, Prod.mk.injEq] at hb
    obtain ⟨hB, -⟩ := hb
    obtain ⟨F1, F2h, F2b, F2al, Fm, Fw, Fg, Fsc1⟩ :=
      p2FoodCheck_some w h food0 cands st stF cF hfood
    have hsh : selfHit stF.snake2 = selfHit st.snake2 := selfHit_congr F2h F2b
    subst hB
    by_cases hself : selfHit st.snake2 = true <;>
      by_cases halive1 : st.snake1.alive = true <;>
        by_cases hbody : bodyHit st.snake2.head st.snake1.body = true <;>
          simp [p2SelfCheck, p2VsP1Check, hsh, hself, halive1, hbody, F1, F2h,
            F2b, F2al, Fm, Fw, Fg, Fsc1, hg.2]
  · rw [if_neg hg] at hb
    simp only [Option.some.injEq, Prod.mk.injEq] at hb
    obtain ⟨hB, -⟩ := hb
    have halive2 : st.snake2.alive = false := by
      rcases hx : st.snake2.alive with _ | _
      · rfl
      · exact absurd ⟨hm, hx⟩ hg
    rw [← hB]
    simp [halive2]


/-- Claim C1 (amended): in duo mode, any death this tick ends the match; if
exactly one snake dies the winner is the other snake; if both die, the
winner is Tie exactly when the heads are within the head-on radius
(head-on collision), and otherwise — e.g. both snakes self-colliding in the
same tick — the winner is Player 1 (Green), because Player 2's later-evaluated
death cause overwrites the winner. -/
theorem checkCollisions_winner_spec (w h : ℚ) (cands : List (ℚ × ℚ))
    (st st' : GameState) (hm : st.mode = Mode.multiplayer)
    (h1 : st.snake1.alive = true) (h2 : st.snake2.alive = true)
    (hres : checkCollisions w h cands st = some st') :
    ((st'.snake1.alive = false ∨ st'.snake2.alive = false) → st'.gameOver = true) ∧
    (st'.snake1.alive = false → st'.snake2.alive = true →
      st'.winner = "Player 2 (Blue)") ∧
    (st'.snake1.alive = true → st'.snake2.alive = false →
      st'.winner = "Player 1 (Green)") ∧
    (st'.snake1.alive = false → st'.snake2.alive = false →
      (distSq st.snake1.head st.snake2.head < 10 ^ 2 → st'.winner = "Tie") ∧
      (¬ distSq st.snake1.head st.snake2.head < 10 ^ 2 →
        st'.winner = "Player 1 (Green)")) := by
  unfold checkCollisions at hres
  rcases hb1 : p1Block w h st.food cands st with _ | pA
  · rw [hb1] at hres
    exact absurd hres (by simp)
  obtain ⟨stA, cA⟩ := pA
  rw [hb1] at hres
  dsimp only [Option.bind] at hres
  rcases hb2 : p2Block w h st.food cA stA with _ | pB
  · rw [hb2] at hres
    exact absurd hres (by simp)
  obtain ⟨stB, cB⟩ := pB
  rw [hb2] at hres
  simp only [Option.map_some', Option.some.injEq] at hres
  subst hres
  obtain ⟨Amode, A1h, A1b, A2h, A2b, A2l, Asc2, Aho, Anho⟩ :=
    p1Block_spec w h st.food cands st stA cA hm h1 h2 hb1
  obtain ⟨B1al, Bsc1, B1l, B1h, B1b, Bdead, Balive⟩ :=
    p2Block_spec w h st.food cA stA stB cB Amode hb2
  by_cases hho : distSq st.snake1.head st.snake2.head < 10 ^ 2
  · obtain ⟨hA1, hA2, hAw, hAg⟩ := Aho hho
    have hBA : stB = stA := Bdead hA2
    subst hBA
    refine ⟨fun _ => hAg, ?_, ?_, fun _ _ => ⟨fun _ => hAw, fun hno => absurd hho hno⟩⟩
    · intro _ hcon
      rw [hA2] at hcon
      exact absurd hcon (by simp)
    · intro hcon _
      rw [hA1] at hcon
      exact absurd hcon (by simp)
  · obtain ⟨hA2t, Adie, Asame⟩ := Anho hho
    have hsh2 : selfHit stA.snake2 = selfHit st.snake2 := selfHit_congr A2h A2b
    obtain ⟨Bd, Bs⟩ := Balive hA2t
    by_cases hd1 : selfHit st.snake1 = true ∨ bodyHit st.snake1.head st.snake2.body = true
    · obtain ⟨hA1f, hAw, hAg⟩ := Adie hd1
      by_cases hs2 : selfHit st.snake2 = true
      · obtain ⟨hB2f, hBw, hBg⟩ := Bd (Or.inl (hsh2.trans hs2))
        refine ⟨fun _ => hBg, ?_, ?_,
          fun _ _ => ⟨fun hyes => absurd hyes hho, fun _ => hBw⟩⟩
        · intro _ hcon
          rw [hB2f] at hcon
          exact absurd hcon (by simp)
        · intro hcon _
          rw [B1al, hA1f] at hcon
          exact absurd hcon (by simp)
      · have hs2f : selfHit stA.snake2 = false := by
          rw [hsh2]
          rcases hx : selfHit st.snake2 with _ | _
          · rfl
          · exact absurd hx hs2
        obtain ⟨hB2t, hBw, hBg⟩ := Bs hs2f
          (fun hcon => by rw [hA1f] at hcon; exact absurd hcon (by simp))
        refine ⟨fun _ => hBg.trans hAg, fun _ _ => hBw.trans hAw, ?_, ?_⟩
        · intro hcon _
          rw [B1al, hA1f] at hcon
          exact absurd hcon (by simp)
        · intro _ hcon
          rw [hB2t] at hcon
          exact absurd hcon (by simp)
    · have hsf : selfHit st.snake1 = false := by
        rcases hx : selfHit st.snake1 with _ | _
        · rfl
        · exact absurd (Or.inl hx) hd1
      have hbf : bodyHit st.snake1.head st.snake2.body = false := by
        rcases hx : bodyHit st.snake1.head st.snake2.body with _ | _
        · rfl
        · exact absurd (Or.inr hx) hd1
      obtain ⟨hA1t, hAw, hAg⟩ := Asame hsf hbf
      by_cases hd2 : selfHit st.snake2 = true ∨
          bodyHit st.snake2.head st.snake1.body = true
      · have hd2' : selfHit stA.snake2 = true ∨
            (stA.snake1.alive = true ∧ bodyHit stA.snake2.head stA.snake1.body = true) := by
          rcases hd2 with hx | hx
          · exact Or.inl (hsh2.trans hx)
          · refine Or.inr ⟨hA1t, ?_⟩
            rw [A2h, A1b]
            exact hx
        obtain ⟨hB2f, hBw, hBg⟩ := Bd hd2'
        refine ⟨fun _ => hBg, ?_, fun _ _ => hBw, ?_⟩
        · intro hcon _
          rw [B1al, hA1t] at hcon
          exact absurd hcon (by simp)
        · intro hcon _
          rw [B1al, hA1t] at hcon
          exact absurd hcon (by simp)
      · have hs2f : selfHit st.snake2 = false := by
          rcases hx : selfHit st.snake2 with _ | _
          · rfl
          · exact absurd (Or.inl hx) hd2
        have hb2f : bodyHit st.snake2.head st.snake1.body = false := by
          rcases hx : bodyHit st.snake2.head st.snake1.body with _ | _
          · rfl
          · exact absurd (Or.inr hx) hd2
        obtain ⟨hB2t, hBw, hBg⟩ := Bs (hsh2.trans hs2f)
          (fun _ => by rw [A2h, A1b]; exact hb2f)
        refine ⟨?_, ?_, ?_, ?_⟩
        · intro hcon
          rcases hcon with hc | hc
          · rw [B1al, hA1t] at hc
            exact absurd hc (by simp)
          · rw [hB2t] at hc
            exact absurd hc (by simp)
        · intro hc _
          rw [B1al, hA1t] at hc
          exact absurd hc (by simp)
        · intro _ hc
          rw [hB2t] at hc
          exact absurd hc (by simp)
        · intro hc _
          rw [B1al, hA1t] at hc
          exact absurd hc (by simp)

/-- Witness for the amended C1 theorem: a duo tick in which exactly Player 1
dies (self-collision) makes Player 2 the winner. -/
theorem checkCollisions_winner_spec_witness :
    stW.mode = Mode.multiplayer ∧ stW.snake1.alive = true ∧
    stW.snake2.alive = true ∧
    checkCollisions 600 600 [] stW = some stW' ∧
    stW'.snake1.alive = false ∧ stW'.snake2.alive = true ∧
    stW'.winner = "Player 2 (Blue)" := by
  have hres : checkCollisions 600 600 [] stW = some stW' := by
    norm_num [checkCollisions, p1Block, p1FoodCheck, p1SelfCheck, p1VsP2Check,
      p2Block, p2FoodCheck, p2SelfCheck, p2VsP1Check, selfHit, bodyHit, distSq,
      stW, stW', Option.bind]
  have hwinner := (checkCollisions_winner_spec 600 600 [] stW stW'
    rfl rfl rfl hres).2.1 rfl rfl
  exact ⟨rfl, rfl, rfl, hres, rfl, rfl, hwinner⟩

/-- Claim C1 counterexample: in duo mode, when both snakes die in the same
tick by each self-colliding, the recorded winner is Player 1 (Green), not
Tie: Player 2's self-collision is evaluated later and overwrites the
winner. -/
theorem double_death_not_tie :
    stX.snake1.alive = true ∧ stX.snake2.alive = true ∧
    stX.mode = Mode.multiplayer ∧
    (checkCollisions 600 600 [] stX).map
        (fun s => (s.snake1.alive, s.snake2.alive, s.gameOver, s.winner)) =
      some (false, false, true, "Player 1 (Green)") ∧
    "Player 1 (Green)" ≠ "Tie" := by
  refine ⟨rfl, rfl, rfl, ?_, by decide⟩
  norm_num [checkCollisions, p1Block, p1FoodCheck, p1SelfCheck, p1VsP2Check,
    p2Block, p2FoodCheck, p2SelfCheck, p2VsP1Check, selfHit, bodyHit, distSq,
    stX, stW, Option.bind]


lemma foodValid_congr (f : Vec ℚ) (mode : Mode) (s1 t1 s2 t2 : Snake ℚ)
    (h1h : s1.head = t1.head) (h1b : s1.body = t1.body)
    (h2h : s2.head = t2.head) (h2b : s2.body = t2.body) :
    foodValid f (snakesForMode mode s1 s2) = foodValid f (snakesForMode mode t1 t2) := by
  cases mode <;> simp [snakesForMode, foodValid, h1h, h1b, h2h, h2b]

lemma generateFood_congr (w h : ℚ) (mode : Mode) (s1 t1 s2 t2 : Snake ℚ)
    (h1h : s1.head = t1.head) (h1b : s1.body = t1.body)
    (h2h : s2.head = t2.head) (h2b : s2.body = t2.body) :
    ∀ cands : List (ℚ × ℚ),
      generateFood w h mode s1 s2 cands = generateFood w h mode t1 t2 cands := by
  intro cands
  induction cands with
  | nil => rfl
  | cons c cs ih =>
    simp only [generateFood]
    rw [foodValid_congr (candToPoint w h c) mode s1 t1 s2 t2 h1h h1b h2h h2b, ih]

lemma p1VsP2Check_no_headon (st : GameState)
    (hho : ¬ distSq st.snake1.head st.snake2.head < 10 ^ 2) :
    (p1VsP2Check st).snake2 = st.snake2 := by
  unfold p1VsP2Check
  by_cases hg : st.mode = Mode.multiplayer ∧ st.snake2.alive = true
  · rw [if_pos hg, if_neg hho]
    by_cases hb : bodyHit st.snake1.head st.snake2.body = true
    · rw [if_pos hb]
    · rw [if_neg hb]
  · rw [if_neg hg]

lemma p2FoodCheck_pickup (w h : ℚ) (food0 : Vec ℚ) (cands : List (ℚ × ℚ))
    (st stF : GameState) (cF : List (ℚ × ℚ))
    (hf : distSq st.snake2.head food0 < 15 ^ 2)
    (hres : p2FoodCheck w h food0 cands st = some (stF, cF)) :
    stF.score2 = st.score2 + 10 ∧
    stF.snake2.length = st.snake2.length + 5 ∧
    generateFood w h st.mode st.snake1
      { st.snake2 with length := st.snake2.length + 5 } cands = some (stF.food, cF) := by
  unfold p2FoodCheck at hres
  rw [if_pos hf] at hres
  dsimp only at hres
  rcases hgen : generateFood w h st.mode st.snake1
      { st.snake2 with length := st.snake2.length + 5 } cands with _ | fr
  · rw [hgen] at hres
    exact absurd hres (by simp)
  · obtain ⟨f, rest⟩ := fr
    rw [hgen] at hres
    simp only [Option.some.injEq, Prod.mk.injEq] at hres
    obtain ⟨h1', h2'⟩ := hres
    subst h2'
    rw [← h1']
    exact ⟨rfl, rfl, rfl⟩

/-- Claim C2 (amended): when both live snakes' heads are within the pickup
radius of the food at the start of duo collision resolution, and the heads
are not themselves within the head-on radius of each other (a head-on kills
both snakes before Player 2's food check runs), BOTH snakes receive their
own reward (+10 score, +5 target length each), because Player 2's test reads
the food position captured at the start of the tick, not the respawned one;
and each pickup fires its own food-respawn trigger — two respawns occur,
Player 1's first, and the food produced by Player 2's trigger is the one
that survives the tick. -/
theorem checkCollisions_double_pickup (w h : ℚ) (cands : List (ℚ × ℚ))
    (st st' : GameState) (hm : st.mode = Mode.multiplayer)
    (h1 : st.snake1.alive = true) (h2 : st.snake2.alive = true)
    (hf1 : distSq st.snake1.head st.food < 15 ^ 2)
    (hf2 : distSq st.snake2.head st.food < 15 ^ 2)
    (hho : ¬ distSq st.snake1.head st.snake2.head < 10 ^ 2)
    (hres : checkCollisions w h cands st = some st') :
    st'.score1 = st.score1 + 10 ∧
    st'.snake1.length = st.snake1.length + 5 ∧
    st'.score2 = st.score2 + 10 ∧
    st'.snake2.length = st.snake2.length + 5 ∧
    ∃ (f1 : Vec ℚ) (rest1 rest2 : List (ℚ × ℚ)),
      generateFood w h st.mode { st.snake1 with length := st.snake1.length + 5 }
        st.snake2 cands = some (f1, rest1) ∧
      generateFood w h st.mode { st.snake1 with length := st.snake1.length + 5 }
        { st.snake2 with length := st.snake2.length + 5 } rest1 =
        some (st'.food, rest2) := by
  unfold checkCollisions at hres
  rcases hb1 : p1Block w h st.food cands st with _ | pA
  · rw [hb1] at hres
    exact absurd hres (by simp)
  obtain ⟨stA, cA⟩ := pA
  rw [hb1] at hres
  dsimp only [Option.bind] at hres
  rcases hb2 : p2Block w h st.food cA stA with _ | pB
  · rw [hb2] at hres
    exact absurd hres (by simp)
  obtain ⟨stB, cB⟩ := pB
  rw [hb2] at hres
  simp only [Option.map_some', Option.some.injEq] at hres
  subst hres
  unfold p1Block at hb1
  rw [if_pos h1] at hb1
  rcases hfood : p1FoodCheck w h st.food cands st with _ | fr
  · rw [hfood] at hb1
    exact absurd hb1 (by simp)
  obtain ⟨stF, cF⟩ := fr
  rw [hfood] at hb1
  simp only [Option.map_some', Option.some.injEq, Prod.mk.injEq] at hb1
  obtain ⟨hA, hcA⟩ := hb1
  subst hcA
  obtain ⟨Fh, Fb, Fal, Fs2, Fm, Fw, Fg, Fsc2⟩ :=
    p1FoodCheck_some w h st.food cands st stF cF hfood
  obtain ⟨hsc1, hlen1, hgen1⟩ :=
    p1FoodCheck_pickup w h st.food cands st stF cF hf1 hfood
  subst hA
  obtain ⟨S1h, S1b, S1l, S1s2, S1f, S1sc1, S1sc2, S1m⟩ := p1SelfCheck_preserve stF
  obtain ⟨V1h, V1b, V1l, V2h, V2b, V2l, Vf, Vsc1, Vsc2, Vm⟩ :=
    p1VsP2Check_preserve (p1SelfCheck stF)
  have hho' : ¬ distSq (p1SelfCheck stF).snake1.head
      (p1SelfCheck stF).snake2.head < 10 ^ 2 := by
    rw [S1h, Fh, S1s2, Fs2]
    exact hho
  have hA2eq : (p1VsP2Check (p1SelfCheck stF)).snake2 = st.snake2 := by
    rw [p1VsP2Check_no_headon (p1SelfCheck stF) hho', S1s2, Fs2]
  have hAmode : (p1VsP2Check (p1SelfCheck stF)).mode = Mode.multiplayer :=
    (Vm.trans (S1m.trans Fm)).trans hm
  have hA1h : (p1VsP2Check (p1SelfCheck stF)).snake1.head = st.snake1.head :=
    (V1h.trans S1h).trans Fh
  have hA1b : (p1VsP2Check (p1SelfCheck stF)).snake1.body = st.snake1.body :=
    (V1b.trans S1b).trans Fb
  have hAsc1 : (p1VsP2Check (p1SelfCheck stF)).score1 = st.score1 + 10 :=
    (Vsc1.trans S1sc1).trans hsc1
  have hAl1 : (p1VsP2Check (p1SelfCheck stF)).snake1.length = st.snake1.length + 5 :=
    (V1l.trans S1l).trans hlen1
  have hAsc2 : (p1VsP2Check (p1SelfCheck stF)).score2 = st.score2 :=
    (Vsc2.trans S1sc2).trans Fsc2
  unfold p2Block at hb2
  rw [if_pos ⟨hAmode, by rw [hA2eq]; exact h2⟩] at hb2
  rcases hfood2 : p2FoodCheck w h st.food cF (p1VsP2Check (p1SelfCheck stF)) with _ | fr2
  · rw [hfood2] at hb2
    exact absurd hb2 (by simp)
  obtain ⟨stF2, cF2⟩ := fr2
  rw [hfood2] at hb2
  simp only [Option.map_some', Option.some.injEq, Prod.mk.injEq] at hb2
  obtain ⟨hB, -⟩ := hb2
  have hf2' : distSq (p1VsP2Check (p1SelfCheck stF)).snake2.head st.food < 15 ^ 2 := by
    rw [hA2eq]
    exact hf2
  obtain ⟨hsc2, hlen2, hgen2⟩ :=
    p2FoodCheck_pickup w h st.food cF _ stF2 cF2 hf2' hfood2
  obtain ⟨F1', F2h', F2b', F2al', Fm', Fw', Fg', Fsc1'⟩ :=
    p2FoodCheck_some w h st.food cF _ stF2 cF2 hfood2
  subst hB
  obtain ⟨T1, T2h, T2b, T2l, Tf, Tsc1, Tsc2, Tm⟩ := p2SelfCheck_preserve stF2
  obtain ⟨U1, U2h, U2b, U2l, Uf, Usc1, Usc2, Um⟩ :=
    p2VsP1Check_preserve (p2SelfCheck stF2)
  refine ⟨?_, ?_, ?_, ?_, stF.food, cF, cF2, ?_, ?_⟩
  · rw [Usc1, Tsc1, Fsc1', hAsc1]
  · rw [U1, T1, F1', hAl1]
  · rw [Usc2, Tsc2, hsc2, hAsc2]
  · rw [U2l, T2l, hlen2, hA2eq]
  · exact hgen1
  · rw [Uf, Tf]
    have hmode2 : (p1VsP2Check (p1SelfCheck stF)).mode = st.mode := hAmode.trans hm.symm
    rw [hmode2] at hgen2
    have hcongr := generateFood_congr w h st.mode
      (p1VsP2Check (p1SelfCheck stF)).snake1
      { st.snake1 with length := st.snake1.length + 5 }
      { (p1VsP2Check (p1SelfCheck stF)).snake2 with
          length := (p1VsP2Check (p1SelfCheck stF)).snake2.length + 5 }
      { st.snake2 with length := st.snake2.length + 5 }
      hA1h hA1b (by rw [hA2eq]) (by rw [hA2eq]) cF
    rw [hcongr] at hgen2
    exact hgen2

/-- Claim C2 counterexample: with both heads within the pickup radius at the
start of the tick, both pickups fire their own food respawn — not exactly
one.  The food that survives the tick is built from the second random
candidate `(1/4, 1/4)`, i.e. Player 2's trigger replaced the food that
Player 1's trigger, built from the first candidate `(1/7, 1/7)`, had just
placed: the claim's "exactly one food-respawn trigger fires" is false. -/
theorem double_pickup_two_respawns :
    distSq stY.snake1.head stY.food < 15 ^ 2 ∧
    distSq stY.snake2.head stY.food < 15 ^ 2 ∧
    candToPoint 600 600 (1 / 7, 1 / 7) = ⟨100, 100⟩ ∧
    (checkCollisions 600 600 [(1 / 7, 1 / 7), (1 / 4, 1 / 4)] stY).map
        (fun s => (s.score1, s.score2, s.snake1.length, s.snake2.length, s.food)) =
      some (10, 10, 5, 5, (⟨160, 160⟩ : Vec ℚ)) ∧
    (⟨160, 160⟩ : Vec ℚ) ≠ ⟨100, 100⟩ := by
  refine ⟨by norm_num [distSq, stY], by norm_num [distSq, stY],
    by norm_num [candToPoint], ?_,
    fun hcon => absurd (congrArg Vec.x hcon) (by norm_num)⟩
  norm_num [checkCollisions, p1Block, p1FoodCheck, p1SelfCheck, p1VsP2Check,
    p2Block, p2FoodCheck, p2SelfCheck, p2VsP1Check, selfHit, bodyHit, distSq,
    generateFood, foodValid, candToPoint, snakesForMode, speedOnPickup,
    stY, Option.bind]

/-- Witness for the amended C2 theorem at a concrete double-pickup state. -/
theorem checkCollisions_double_pickup_witness :
    checkCollisions 600 600 [(1 / 7, 1 / 7), (1 / 4, 1 / 4)] stY = some stY2 ∧
    stY2.score1 = stY.score1 + 10 ∧
    stY2.snake1.length = stY.snake1.length + 5 ∧
    stY2.score2 = stY.score2 + 10 ∧
    stY2.snake2.length = stY.snake2.length + 5 ∧
    ∃ (f1 : Vec ℚ) (rest1 rest2 : List (ℚ × ℚ)),
      generateFood 600 600 stY.mode
          { stY.snake1 with length := stY.snake1.length + 5 } stY.snake2
          [(1 / 7, 1 / 7), (1 / 4, 1 / 4)] = some (f1, rest1) ∧
      generateFood 600 600 stY.mode
          { stY.snake1 with length := stY.snake1.length + 5 }
          { stY.snake2 with length := stY.snake2.length + 5 } rest1 =
        some (stY2.food, rest2) := by
  have hres : checkCollisions 600 600 [(1 / 7, 1 / 7), (1 / 4, 1 / 4)] stY =
      some stY2 := by
    norm_num [checkCollisions, p1Block, p1FoodCheck, p1SelfCheck, p1VsP2Check,
      p2Block, p2FoodCheck, p2SelfCheck, p2VsP1Check, selfHit, bodyHit, distSq,
      generateFood, foodValid, candToPoint, snakesForMode, speedOnPickup,
      stY, stY2, Option.bind]
  have hmain := checkCollisions_double_pickup 600 600 [(1 / 7, 1 / 7), (1 / 4, 1 / 4)]
    stY stY2 rfl rfl rfl (by norm_num [distSq, stY]) (by norm_num [distSq, stY])
    (by norm_num [distSq, stY]) hres
  exact ⟨hres, hmain.1, hmain.2.1, hmain.2.2.1, hmain.2.2.2.1, hmain.2.2.2.2⟩
